import Mathlib

/-!
Shallow embedding of `src/test-fixtures/monorepo/apps/api-service/src/main.py`,
a 19-line FastAPI service with two GET routes and a `__main__` entry that
starts a uvicorn server.  Python values are modelled as plain Lean data:
pydantic models become structures, JSON bodies become an inductive `Json`
type, the FastAPI app becomes a record carrying its metadata and route
table, and request dispatch is explicit state passing over the app value.
-/

/-- JSON values, as produced by the framework's serialization of the
handler return values (string fields, numeric ids, objects, arrays). -/
inductive Json where
  | str (s : String)
  | num (n : Nat)
  | obj (fields : List (String × Json))
  | arr (elems : List Json)

/-- Pydantic model `class HealthResponse(BaseModel)`: a record with two
string fields. -/
structure HealthResponse where
  status : String
  version : String

/-- Serialization of a `HealthResponse` through the pydantic response model:
an object with the two fields in declaration order. -/
def HealthResponse.toJson (h : HealthResponse) : Json :=
  Json.obj [("status", Json.str h.status), ("version", Json.str h.version)]

/-- One element of the list returned by `get_users`: the dict
`{"id": ..., "name": ...}`. -/
structure User where
  id : Nat
  name : String

/-- Serialization of a user dict. -/
def User.toJson (u : User) : Json :=
  Json.obj [("id", Json.num u.id), ("name", Json.str u.name)]

/-- Handler `def health_check(): return HealthResponse(status="healthy", version="1.0.0")`. -/
def health_check : HealthResponse :=
  { status := "healthy", version := "1.0.0" }

/-- Handler `def get_users()`: returns the static two-element list of user
dicts with ids 1 and 2 and names John and Jane. -/
def get_users : List User :=
  [{ id := 1, name := "John" }, { id := 2, name := "Jane" }]

/-- HTTP methods used by the service (only GET routes are registered). -/
inductive Method where
  | GET
deriving DecidableEq, BEq

/-- A registered route: method, path, and the handler (a zero-argument
function whose result is serialized to JSON by the framework). -/
structure Route where
  method : Method
  path : String
  handle : Unit → Json

/-- The FastAPI application object: constructor metadata plus the route
table built up by the `@app.get` decorators. -/
structure App where
  title : String
  version : String
  routes : List Route

/-- The route registered by `@app.get("/health", response_model=HealthResponse)`:
the handler's return value is serialized through `HealthResponse`. -/
def healthRoute : Route :=
  { method := Method.GET, path := "/health",
    handle := fun _ => health_check.toJson }

/-- The route registered by `@app.get("/api/users")`: the returned list of
dicts is serialized as a JSON array. -/
def usersRoute : Route :=
  { method := Method.GET, path := "/api/users",
    handle := fun _ => Json.arr (get_users.map User.toJson) }

/-- The module-level `app = FastAPI(title="API Service", version="1.0.0")`
with the two routes registered by the decorators, in source order. -/
def app : App :=
  { title := "API Service", version := "1.0.0",
    routes := [healthRoute, usersRoute] }

/-- An incoming HTTP request (method and path are all the handlers see;
neither handler takes parameters). -/
structure Request where
  method : Method
  path : String

/-- An HTTP response: status code and JSON body.  FastAPI returns 200 for
a normally returning GET handler. -/
structure HttpResponse where
  statusCode : Nat
  body : Json

/-- Dispatching one request against the app: look the route up in the
route table and run its handler.  The app state is passed through
explicitly; `none` stands for the framework's default handling (404) of
unregistered paths, which is outside the snippet. -/
def dispatch (a : App) (req : Request) : App × Option HttpResponse :=
  match a.routes.find? (fun r => r.method == req.method && r.path == req.path) with
  | some r => (a, some { statusCode := 200, body := r.handle () })
  | none => (a, none)

/-- Serving a sequence of requests, threading the app state through. -/
def serve : App → List Request → App × List (Option HttpResponse)
  | a, [] => (a, [])
  | a, req :: rest =>
    let step := dispatch a req
    let next := serve step.1 rest
    (next.1, step.2 :: next.2)

/-- Observable effects of running the module. -/
inductive ModuleEffect where
  | bindServer (host : String) (port : Nat)

/-- Running the module: the top level constructs `app` (registering the two
routes); `uvicorn.run(app, host="0.0.0.0", port=8000)` executes only under
`if __name__ == "__main__":`. -/
def run_module (isMain : Bool) : App × List ModuleEffect :=
  (app, if isMain then [ModuleEffect.bindServer "0.0.0.0" 8000] else [])

/-- The service produces a `HealthResponse` value `h` when some request is
answered with status 200 and `h`'s serialization as the body. -/
def ServiceProducesHealth (h : HealthResponse) : Prop :=
  ∃ req, (dispatch app req).2 = some { statusCode := 200, body := h.toJson }

/-- Dispatching a request never modifies the app: both branches of the
route lookup return the app unchanged. -/
lemma dispatch_fst (a : App) (req : Request) : (dispatch a req).1 = a := by
  unfold dispatch
  split <;> rfl

/-- Serving any request sequence leaves the app unchanged. -/
lemma serve_fst (a : App) (reqs : List Request) : (serve a reqs).1 = a := by
  induction reqs generalizing a with
  | nil => rfl
  | cons req rest ih => simp [serve, ih, dispatch_fst]

/-- C1: GET /health is answered with HTTP 200 and body exactly the object
with status "healthy" and version "1.0.0"; the health_check handler's
HealthResponse has status "healthy" and version "1.0.0". -/
theorem health_endpoint_returns_constant_body :
    (dispatch app { method := Method.GET, path := "/health" }).2 =
      some { statusCode := 200,
             body := Json.obj [("status", Json.str "healthy"),
                               ("version", Json.str "1.0.0")] } ∧
    health_check.status = "healthy" ∧ health_check.version = "1.0.0" :=
  ⟨rfl, rfl, rfl⟩

/-- C2: GET /api/users is answered with HTTP 200 and body exactly the
two-element array of the John and Jane records, in that order; the
get_users handler returns exactly two records with ids 1 and 2. -/
theorem users_endpoint_returns_static_list :
    (dispatch app { method := Method.GET, path := "/api/users" }).2 =
      some { statusCode := 200,
             body := Json.arr [Json.obj [("id", Json.num 1), ("name", Json.str "John")],
                               Json.obj [("id", Json.num 2), ("name", Json.str "Jane")]] } ∧
    get_users.length = 2 ∧ get_users.map User.id = [1, 2] :=
  ⟨rfl, rfl, rfl⟩

/-- C3: the app's route table consists of exactly the two GET routes
/health and /api/users, in that order, and no others. -/
theorem route_table_exactly_two_get_routes :
    app.routes.map (fun r => (r.method, r.path)) =
      [(Method.GET, "/health"), (Method.GET, "/api/users")] ∧
    app.routes.length = 2 :=
  ⟨rfl, rfl⟩

/-- C4: when the module runs as the process entry point, the server is
started bound to host 0.0.0.0 on port 8000. -/
theorem main_entry_binds_all_interfaces_port_8000 :
    run_module true = (app, [ModuleEffect.bindServer "0.0.0.0" 8000]) :=
  rfl

/-- C5: neither handler has a failure path: every registered route's
request is answered normally with HTTP 200 and the handler's (total)
return value as the body. -/
theorem handlers_have_no_failure_path :
    ∀ r : Route, r ∈ app.routes →
      (dispatch app { method := r.method, path := r.path }).2 =
        some { statusCode := 200, body := r.handle () } := by
  intro r hr
  simp only [app, List.mem_cons, List.not_mem_nil, or_false] at hr
  rcases hr with h | h <;> subst h <;> rfl

/-- Witness for C5 at the /health route. -/
theorem handlers_have_no_failure_path_witness :
    healthRoute ∈ app.routes ∧
    (dispatch app { method := healthRoute.method, path := healthRoute.path }).2 =
      some { statusCode := 200, body := healthRoute.handle () } :=
  ⟨by simp [app], handlers_have_no_failure_path healthRoute (by simp [app])⟩

/-- C6: every HealthResponse the service produces has both string fields
populated with the same constants: status "healthy" and version "1.0.0". -/
theorem health_response_fields_constant :
    ∀ h : HealthResponse, ServiceProducesHealth h →
      h.status = "healthy" ∧ h.version = "1.0.0" := by
  intro h ⟨req, hreq⟩
  unfold dispatch at hreq
  revert hreq
  cases hfind : app.routes.find? (fun r => r.method == req.method && r.path == req.path) with
  | none => intro hreq; simp at hreq
  | some r =>
    intro hreq
    have hmem := List.mem_of_find?_eq_some hfind
    simp only [app, List.mem_cons, List.not_mem_nil, or_false] at hmem
    rcases hmem with hr | hr <;> subst hr
    · simp [healthRoute, health_check, HealthResponse.toJson] at hreq
      exact ⟨hreq.1.symm, hreq.2.symm⟩
    · simp [usersRoute, HealthResponse.toJson] at hreq

/-- Witness for C6 at the value the health handler constructs. -/
theorem health_response_fields_constant_witness :
    ServiceProducesHealth health_check ∧
    health_check.status = "healthy" ∧ health_check.version = "1.0.0" :=
  ⟨⟨{ method := Method.GET, path := "/health" }, rfl⟩,
   health_response_fields_constant health_check
     ⟨{ method := Method.GET, path := "/health" }, rfl⟩⟩

/-- C7: handlers touch no shared mutable state: dispatching any request,
or any sequence of requests, leaves the program state (the app) exactly
as it was. -/
theorem handlers_frame_state_unchanged :
    (∀ req : Request, (dispatch app req).1 = app) ∧
    (∀ reqs : List Request, (serve app reqs).1 = app) :=
  ⟨fun req => dispatch_fst app req, fun reqs => serve_fst app reqs⟩

/-- C8: both handlers are deterministic: the response to any request is
the same regardless of which requests were served before it. -/
theorem handlers_deterministic :
    ∀ (hist1 hist2 : List Request) (req : Request),
      (dispatch (serve app hist1).1 req).2 = (dispatch (serve app hist2).1 req).2 := by
  intro hist1 hist2 req
  rw [serve_fst, serve_fst]

/-- C9: the version the health handler reports equals the version passed
to the FastAPI constructor. -/
theorem health_version_matches_app_metadata :
    health_check.version = app.version :=
  rfl

/-- C10: importing the module (not as main) performs no server bind: the
only effect is constructing the app with its two registered routes. -/
theorem import_does_not_bind_server :
    run_module false = (app, []) ∧
    (run_module false).1.routes.map (fun r => (r.method, r.path)) =
      [(Method.GET, "/health"), (Method.GET, "/api/users")] :=
  ⟨rfl, rfl⟩
